import Mathlib

/-!
Verification of the DBC admin front-end (card editor + admin shell) against
its natural-language specification.

The embedding below is a shallow model of the two source files:
  * `src/src/components/CardEditor.tsx` — two revisions of the card editor,
    separated in the file by a document separator.  Revision 1 spans the
    first part (handleSave at lines 206-266, username onChange at 480-494,
    handleAutoSyncSocialLinks at 272-317, handleAddSocialLink at 319-348,
    handleSocialLinkEdit at 350-380, handleRemoveSocialLink at 382-398);
    revision 2 spans the rest (handleSave at 1386-1446, username onChange at
    1533, addSocialLink at 1448-1475, removeSocialLink at 1477-1493).
  * `src/unnamed/part_000` — the AdminPanel shell (loadUserCards at lines
    45-67, handleDuplicateCard at 115-139).

Remote calls (supabase) are modelled by explicit outcome parameters and by
lists standing for the remote tables; DB-assigned ids are supplied as
parameters.  JavaScript string semantics: `toLowerCase` is modelled on the
ASCII range (sufficient for every statement below, since the relevant
filters keep only ASCII characters), and `s || null` on strings is the
function `jsOrNull` (the empty string is the only falsy string).
-/

namespace DBC

/-- ASCII lowercasing of a single character; models JavaScript
`toLowerCase` on the ASCII range (non-ASCII characters pass through;
every statement proved below filters them out afterwards anyway). -/
def asciiLower (c : Char) : Char :=
  if 'A' ≤ c ∧ c ≤ 'Z' then Char.ofNat (c.toNat + 32) else c

/-- Characters kept by revision 1's username onChange regex
`/[^a-z0-9]/g` (CardEditor.tsx lines 483-489): lowercase ASCII letters
and digits only. -/
def isSlugChar1 (c : Char) : Bool :=
  ('a' ≤ c && c ≤ 'z') || ('0' ≤ c && c ≤ '9')

/-- Characters kept by revision 2's username onChange regex
`/[^a-z0-9-]/g` (CardEditor.tsx line 1533): additionally the hyphen. -/
def isSlugChar2 (c : Char) : Bool :=
  isSlugChar1 c || c = '-'

/-- Characters kept by the global-username onChange regex
`/[^a-z0-9_]/g` (CardEditor.tsx lines 508-512): additionally the
underscore (this is a different form field from the slug/username). -/
def isGlobalChar (c : Char) : Bool :=
  isSlugChar1 c || c = '_'

/-- Revision 1 username onChange (CardEditor.tsx lines 483-489):
`e.target.value.toLowerCase().replace(/[^a-z0-9]/g, "")`. -/
def usernameFilter1 (s : String) : String :=
  ((s.data.map asciiLower).filter isSlugChar1).asString

/-- Revision 2 username onChange (CardEditor.tsx line 1533):
`e.target.value.toLowerCase().replace(/[^a-z0-9-]/g, '')`. -/
def usernameFilter2 (s : String) : String :=
  ((s.data.map asciiLower).filter isSlugChar2).asString

/-- Global-username onChange (CardEditor.tsx lines 508-512):
`e.target.value.toLowerCase().replace(/[^a-z0-9_]/g, "")`. -/
def globalUsernameFilter (s : String) : String :=
  ((s.data.map asciiLower).filter isGlobalChar).asString

/-- JavaScript `s || null` for strings: the empty string is the only
falsy string, so it maps to `none` and any other string to itself. -/
def jsOrNull (s : String) : Option String :=
  if s = "" then none else some s

/-- Theme record (the `theme` JSON column / `FormData.theme`). -/
structure Theme where
  primary : String
  secondary : String
  background : String
  text : String
  name : String
deriving DecidableEq, Repr

/-- Layout record (the `layout` JSON column / `FormData.layout`). -/
structure CardLayout where
  style : String
  alignment : String
  font : String
deriving DecidableEq, Repr

/-- The editor's `FormData` state (CardEditor.tsx lines 22-55). -/
structure FormData where
  title : String
  username : String
  globalUsername : String
  company : String
  tagline : String
  profession : String
  avatar_url : String
  phone : String
  whatsapp : String
  email : String
  website : String
  address : String
  map_link : String
  theme : Theme
  shape : String
  layout : CardLayout
  is_published : Bool
deriving DecidableEq, Repr

/-- A row of the `business_cards` table, as read back from the store. -/
structure BusinessCard where
  id : String
  user_id : String
  title : String
  company : String
  position : String
  phone : String
  email : String
  website : String
  avatar_url : String
  bio : String
  whatsapp : String
  address : String
  map_link : String
  theme : Theme
  shape : String
  layout : CardLayout
  is_published : Bool
  slug : Option String
  view_count : Nat
  created_at : Nat
  updated_at : Nat
deriving DecidableEq, Repr

/-- The `cardData` payload built inside `handleSave` (CardEditor.tsx
lines 211-229): note it has no id, no timestamps and no view counter,
and its slug is `formData.username || null`. -/
structure CardData where
  user_id : String
  title : String
  company : String
  position : String
  phone : String
  email : String
  website : String
  avatar_url : String
  bio : String
  whatsapp : String
  address : String
  map_link : String
  theme : Theme
  shape : String
  layout : CardLayout
  is_published : Bool
  slug : Option String
deriving DecidableEq, Repr

/-- Builds the `cardData` object of `handleSave` (CardEditor.tsx lines
211-229) from the current user id and form state. -/
def buildCardData (uid : String) (f : FormData) : CardData :=
  { user_id := uid
    title := f.title
    company := f.company
    position := f.profession
    phone := f.phone
    email := f.email
    website := f.website
    avatar_url := f.avatar_url
    bio := f.tagline
    whatsapp := f.whatsapp
    address := f.address
    map_link := f.map_link
    theme := f.theme
    shape := f.shape
    layout := f.layout
    is_published := f.is_published
    slug := jsOrNull f.username }

/-- A row of the `social_links` table. -/
structure SocialLink where
  id : String
  card_id : String
  platform : String
  username : String
  url : String
  display_order : Nat
  is_active : Bool
  is_auto_synced : Bool
deriving DecidableEq, Repr

/-- The editor's mutable component state relevant to persistence
(CardEditor.tsx revision 1, lines 140-149): the form data, the adopted
persisted card (`businessCard`, seeded from the `existingCard` prop) and
the `saving` flag. -/
structure EditorState where
  formData : FormData
  businessCard : Option BusinessCard
  saving : Bool
deriving DecidableEq, Repr

/-- A persistence call against the `business_cards` table. -/
inductive DbOp where
  | insertCard (d : CardData)
  | updateCard (id : String) (d : CardData)
deriving DecidableEq, Repr

/-- Outcome of the awaited supabase call inside `handleSave`: a returned
row, a returned error object, or a thrown exception. -/
inductive SaveOutcome where
  | ok (card : BusinessCard)
  | err
  | exn
deriving DecidableEq, Repr

/-- The observable result of one `handleSave` run: the editor state
afterwards, the persistence call that was issued (if any), whether a
user-facing alert was raised, and the function's return value. -/
structure SaveResult where
  state : EditorState
  op : Option DbOp
  alerted : Bool
  returned : Option BusinessCard
deriving DecidableEq, Repr

/-- `handleSave` of revision 1 (CardEditor.tsx lines 206-266).  The
branch between insert and update is on the `existingCard` prop — fixed
at initialization — not on the adopted `businessCard` state.  On
success the returned row is stored via `setBusinessCard`; on a returned
error or a thrown exception an alert is raised and the state is left as
it was; `setSaving(false)` runs in the `finally` block. -/
def handleSave (user : Option String) (existingCard : Option BusinessCard)
    (st : EditorState) (outcome : SaveOutcome) : SaveResult :=
  match user with
  | none => { state := st, op := none, alerted := false, returned := none }
  | some uid =>
    let d := buildCardData uid st.formData
    let op : DbOp :=
      match existingCard with
      | some c => .updateCard c.id d
      | none => .insertCard d
    match outcome with
    | .ok card =>
        { state := { st with businessCard := some card, saving := false }
          op := some op, alerted := false, returned := some card }
    | .err =>
        { state := { st with saving := false }
          op := some op, alerted := true, returned := none }
    | .exn =>
        { state := { st with saving := false }
          op := some op, alerted := true, returned := none }

/-- The basic-tab Next button (CardEditor.tsx lines 607-622): awaits
`handleSave` and, when a card was returned, stores it via
`setBusinessCard` and moves to the contact tab.  Only the state part is
modelled; the result carries the save's effects through. -/
def basicTabNext (user : Option String) (existingCard : Option BusinessCard)
    (st : EditorState) (outcome : SaveOutcome) : SaveResult :=
  let r := handleSave user existingCard st outcome
  match r.returned with
  | some card => { r with state := { r.state with businessCard := some card } }
  | none => r

/-- An effect observable from an editor event handler: a persistence
call, a user-facing alert, or a scheduled timer carrying the
persistence calls it will issue when it fires. -/
inductive EditorEffect where
  | db (op : DbOp)
  | alertE (msg : String)
  | timer (delayMs : Nat) (fires : List DbOp)
deriving DecidableEq, Repr

/-- A single form-field mutation, one constructor per controlled input
of the editor (CardEditor.tsx revision 1, the onChange handlers of the
basic/contact/design tabs). -/
inductive FieldEdit where
  | title (v : String)
  | username (v : String)
  | globalUsername (v : String)
  | company (v : String)
  | tagline (v : String)
  | profession (v : String)
  | avatarUrl (v : String)
  | phone (v : String)
  | whatsapp (v : String)
  | email (v : String)
  | website (v : String)
  | address (v : String)
  | mapLink (v : String)
  | theme (t : Theme)
  | shape (v : String)
  | layoutStyle (v : String)
  | layoutAlignment (v : String)
  | layoutFont (v : String)
  | isPublished (b : Bool)
deriving Repr

/-- The editor's field onChange handlers (CardEditor.tsx revision 1,
lines 459-1194): each one only calls `setFormData` — the returned
effect list is what each handler performs besides the state update.
None of them schedules a timer or issues a persistence call; in
particular no auto-save is ever armed (`autoSaving`, line 142, is
declared but never read or written anywhere in the file). -/
def onFieldChange (f : FormData) : FieldEdit → FormData × List EditorEffect
  | .title v => ({ f with title := v }, [])
  | .username v => ({ f with username := usernameFilter1 v }, [])
  | .globalUsername v => ({ f with globalUsername := globalUsernameFilter v }, [])
  | .company v => ({ f with company := v }, [])
  | .tagline v => ({ f with tagline := v }, [])
  | .profession v => ({ f with profession := v }, [])
  | .avatarUrl v => ({ f with avatar_url := v }, [])
  | .phone v => ({ f with phone := v }, [])
  | .whatsapp v => ({ f with whatsapp := v }, [])
  | .email v => ({ f with email := v }, [])
  | .website v => ({ f with website := v }, [])
  | .address v => ({ f with address := v }, [])
  | .mapLink v => ({ f with map_link := v }, [])
  | .theme t => ({ f with theme := t }, [])
  | .shape v => ({ f with shape := v }, [])
  | .layoutStyle v => ({ f with layout := { f.layout with style := v } }, [])
  | .layoutAlignment v => ({ f with layout := { f.layout with alignment := v } }, [])
  | .layoutFont v => ({ f with layout := { f.layout with font := v } }, [])
  | .isPublished b => ({ f with is_published := b }, [])

/-- The persistence calls among a list of effects, counting those a
scheduled timer would issue as well, so "no persistence call is issued
even after any delay" is expressible. -/
def dbOpsOf : List EditorEffect → List DbOp
  | [] => []
  | .db op :: es => op :: dbOpsOf es
  | .alertE _ :: es => dbOpsOf es
  | .timer _ fires :: es => fires ++ dbOpsOf es

/-- A link produced by `generateAutoSyncedLinks(globalUsername)`
(imported from `../utils/socialUtils`, outside the provided sources):
only the shape of its elements matters here — a platform, a handle and
a derived URL. -/
structure GenLink where
  platform : String
  username : String
  url : String
deriving DecidableEq, Repr

/-- `true` for the remote rows `handleAutoSyncSocialLinks` keeps: its
delete call removes the rows with `card_id = businessCard.id` and
`is_auto_synced = true` (CardEditor.tsx lines 280-284). -/
def keepLink (cid : String) (l : SocialLink) : Bool :=
  !(l.card_id == cid && l.is_auto_synced)

/-- The rows inserted by `handleAutoSyncSocialLinks` (CardEditor.tsx
lines 286-300): the generated links, each given
`display_order = socialLinks.length + index` (where `socialLinks` is
the editor's local list), `is_active = true`, `is_auto_synced = true`;
row ids are assigned by the store (`assignId`). -/
def autoSyncInserted (cid : String) (base : Nat) (gen : List GenLink)
    (assignId : Nat → String) : List SocialLink :=
  (gen.zip (List.range gen.length)).map fun gi =>
    { id := assignId gi.2
      card_id := cid
      platform := gi.1.platform
      username := gi.1.username
      url := gi.1.url
      display_order := base + gi.2
      is_active := true
      is_auto_synced := true }

/-- `handleAutoSyncSocialLinks` (CardEditor.tsx lines 272-317), acting
on the remote `social_links` rows and on the editor's local list.
Guard: requires a persisted card and a nonempty global username.  It
deletes the card's auto-synced rows remotely, inserts the freshly
generated ones, and then sets the local list to
`[...socialLinks, ...data]` — appending the inserted rows to the
existing local list without removing the old auto-synced entries from
it.  `insertOk` is the outcome of the insert call; on failure the
delete has already been applied and only an alert follows. -/
def handleAutoSyncSocialLinks (businessCard : Option String)
    (globalUsername : String) (gen : List GenLink) (assignId : Nat → String)
    (remote feed : List SocialLink) (insertOk : Bool) :
    List SocialLink × List SocialLink :=
  match businessCard with
  | none => (remote, feed)
  | some cid =>
    if globalUsername = "" then (remote, feed)
    else
      let remoteAfterDelete := remote.filter (keepLink cid)
      if insertOk then
        let inserted := autoSyncInserted cid feed.length gen assignId
        (remoteAfterDelete ++ inserted, feed ++ inserted)
      else
        (remoteAfterDelete, feed)

/-- A request to add one social link: the form's platform and handle,
plus the URL `generateSocialLink` derives and the row id the store
assigns. -/
structure AddReq where
  platform : String
  username : String
  url : String
  id : String
deriving DecidableEq, Repr

/-- The row `handleAddSocialLink` inserts (CardEditor.tsx lines
323-336): `display_order` is the current length of the editor's local
list, `is_active = true`, `is_auto_synced = false`. -/
def mkAddedLink (cid : String) (req : AddReq) (order : Nat) : SocialLink :=
  { id := req.id
    card_id := cid
    platform := req.platform
    username := req.username
    url := req.url
    display_order := order
    is_active := true
    is_auto_synced := false }

/-- `handleAddSocialLink` (CardEditor.tsx lines 319-348) /
`addSocialLink` (revision 2, lines 1448-1475), acting on the editor's
local list.  Guard: a persisted card and nonempty platform and
username.  On insert success the returned row is appended to the local
list. -/
def addSocialLink (businessCard : Option String) (req : AddReq)
    (insertOk : Bool) (links : List SocialLink) : List SocialLink :=
  match businessCard with
  | none => links
  | some cid =>
    if req.platform = "" ∨ req.username = "" then links
    else if insertOk then links ++ [mkAddedLink cid req links.length]
    else links

/-- Folding a sequence of add requests through `addSocialLink`, all
against the same persisted card with successful inserts: models
successive additions without intervening removals. -/
def addAll (cid : String) (reqs : List AddReq)
    (links : List SocialLink) : List SocialLink :=
  reqs.foldl (fun acc r => addSocialLink (some cid) r true acc) links

/-- `handleSocialLinkEdit` (CardEditor.tsx lines 350-380): finds the
link, updates its username, derived URL (`newUrl`, computed by
`generateSocialLink`) and clears `is_auto_synced`; `display_order` is
untouched.  On a missing link or a failed update the list is
unchanged. -/
def handleSocialLinkEdit (links : List SocialLink) (linkId : String)
    (newUsername newUrl : String) (updateOk : Bool) : List SocialLink :=
  match links.find? (fun l => l.id == linkId) with
  | none => links
  | some _ =>
    if updateOk then
      links.map fun l =>
        if l.id == linkId then
          { l with username := newUsername, url := newUrl, is_auto_synced := false }
        else l
    else links

/-- `handleRemoveSocialLink` (CardEditor.tsx lines 382-398) /
`removeSocialLink` (revision 2, lines 1477-1493): on delete success the
local list drops the matching link, leaving every other row as is. -/
def handleRemoveSocialLink (links : List SocialLink) (linkId : String)
    (deleteOk : Bool) : List SocialLink :=
  if deleteOk then links.filter (fun l => !(l.id == linkId)) else links

/-- The admin shell's state relevant to the card list
(`src/unnamed/part_000` lines 34-35). -/
structure AdminState where
  cards : List BusinessCard
  loading : Bool
deriving DecidableEq, Repr

/-- Outcome of the awaited select inside `loadUserCards`. -/
inductive QueryOutcome where
  | ok
  | err
deriving DecidableEq, Repr

/-- Descending update-time order: the comparison realised by
`.order('updated_at', { ascending: false })`. -/
def updatedDesc (a b : BusinessCard) : Prop :=
  b.updated_at ≤ a.updated_at

instance : DecidableRel updatedDesc :=
  fun a b => Nat.decLe b.updated_at a.updated_at

instance : IsTotal BusinessCard updatedDesc :=
  ⟨fun a b => Nat.le_total b.updated_at a.updated_at⟩

instance : IsTrans BusinessCard updatedDesc :=
  ⟨fun _ _ _ h1 h2 => Nat.le_trans h2 h1⟩

/-- `loadUserCards` (`src/unnamed/part_000` lines 45-67): selects the
rows of `business_cards` with `user_id` equal to the session user's id,
ordered by `updated_at` descending, and on success replaces the whole
in-memory list with the result; on an error the list is left alone.
`setLoading(false)` runs in the `finally` block. -/
def loadUserCards (user : Option String) (table : List BusinessCard)
    (st : AdminState) (q : QueryOutcome) : AdminState :=
  match user with
  | none => st
  | some uid =>
    match q with
    | .err => { st with loading := false }
    | .ok =>
      { cards := List.insertionSort updatedDesc
          (table.filter fun c => c.user_id == uid)
        loading := false }

/-- The payload `handleDuplicateCard` inserts (`src/unnamed/part_000`
lines 115-139): the destructuring strips `id`, `created_at`,
`updated_at` and `slug` from the row, so the payload carries none of
them — this structure has no such fields. -/
structure DupPayload where
  user_id : String
  title : String
  company : String
  position : String
  phone : String
  email : String
  website : String
  avatar_url : String
  bio : String
  whatsapp : String
  address : String
  map_link : String
  theme : Theme
  shape : String
  layout : CardLayout
  is_published : Bool
  view_count : Nat
deriving DecidableEq, Repr

/-- `handleDuplicateCard` (`src/unnamed/part_000` lines 115-139):
spreads the stripped row into the insert payload and overrides
`title` with `` `${card.title} (Copy)` ``, `is_published` with `false`
and `view_count` with `0`. -/
def handleDuplicateCard (card : BusinessCard) : DupPayload :=
  { user_id := card.user_id
    title := card.title ++ " (Copy)"
    company := card.company
    position := card.position
    phone := card.phone
    email := card.email
    website := card.website
    avatar_url := card.avatar_url
    bio := card.bio
    whatsapp := card.whatsapp
    address := card.address
    map_link := card.map_link
    theme := card.theme
    shape := card.shape
    layout := card.layout
    is_published := false
    view_count := 0 }

/-- Modelled from the spec: the snapshot document written by
`exportSnapshot()` — "a JSON document containing the full draft (all
form fields plus social links, media, reviews, and an export
timestamp)" (spec §6).  No export/import code appears in the provided
sources; the child collections the editor passes through are kept
opaque. -/
structure Snapshot where
  formData : FormData
  socialLinks : List SocialLink
  mediaItems : List String
  reviews : List String
  exported_at : Nat
deriving DecidableEq, Repr

/-- Modelled from the spec: the draft `importSnapshot` seeds the editor
with. -/
structure ImportedDraft where
  formData : FormData
  socialLinks : List SocialLink
  mediaItems : List String
  reviews : List String
deriving DecidableEq, Repr

/-- Modelled from the spec: `importSnapshot(blob)` — absent from the
provided sources — "deserializes the full draft … import appends a
fixed suffix to the slug to avoid collision, performing no other
validation" (spec §4.1), the suffix being `-imported` per the §8
scenario (username "bob" → "bob-imported").  The argument is the parse
result: `none` when parsing failed (the only check performed), and on
parse success every snapshot is accepted unconditionally. -/
def importSnapshot (parsed : Option Snapshot) : Option ImportedDraft :=
  parsed.map fun s =>
    { formData := { s.formData with username := s.formData.username ++ "-imported" }
      socialLinks := s.socialLinks
      mediaItems := s.mediaItems
      reviews := s.reviews }

/-- A field mutation applied to the full editor state: the form data is
replaced by the handler's result and the handler's effects are
returned (field mutations never touch `businessCard` or `saving`). -/
def editorFieldEdit (st : EditorState) (e : FieldEdit) :
    EditorState × List EditorEffect :=
  let r := onFieldChange st.formData e
  ({ st with formData := r.1 }, r.2)

/-! ## Concrete fixtures used by closed theorems -/

/-- The first theme of the THEMES table (CardEditor.tsx line 58). -/
def theme0 : Theme :=
  { primary := "#3B82F6", secondary := "#1E40AF", background := "#FFFFFF"
    text := "#1F2937", name := "Ocean Blue" }

/-- The default layout of a new draft (CardEditor.tsx line 167). -/
def layout0 : CardLayout :=
  { style := "modern", alignment := "center", font := "Inter" }

/-- The form state of a freshly opened new draft (CardEditor.tsx lines
151-169 with no existing card and no session email). -/
def emptyForm : FormData :=
  { title := "", username := "", globalUsername := "", company := ""
    tagline := "", profession := "", avatar_url := "", phone := ""
    whatsapp := "", email := "", website := "", address := ""
    map_link := "", theme := theme0, shape := "rectangle"
    layout := layout0, is_published := false }

/-- A new draft after typing a name and a username. -/
def janeForm : FormData :=
  { emptyForm with title := "Jane Doe", username := "janedoe" }

/-- The row the store returns for the first insert of `janeForm`. -/
def insertedRow1 : BusinessCard :=
  { id := "card-1", user_id := "user-1", title := "Jane Doe", company := ""
    position := "", phone := "", email := "", website := "", avatar_url := ""
    bio := "", whatsapp := "", address := "", map_link := "", theme := theme0
    shape := "rectangle", layout := layout0, is_published := false
    slug := some "janedoe", view_count := 0, created_at := 1, updated_at := 1 }

/-- The row the store returns for a second insert of the same draft. -/
def insertedRow2 : BusinessCard :=
  { insertedRow1 with id := "card-2", created_at := 2, updated_at := 2 }

/-- A previously auto-synced link of card `card-1`. -/
def autoLink0 : SocialLink :=
  { id := "sl-1", card_id := "card-1", platform := "Twitter"
    username := "old", url := "https://twitter.com/old"
    display_order := 0, is_active := true, is_auto_synced := true }

/-- A manually added link of card `card-1`. -/
def manualLink0 : SocialLink :=
  { id := "sl-2", card_id := "card-1", platform := "GitHub"
    username := "me", url := "https://github.com/me"
    display_order := 1, is_active := true, is_auto_synced := false }

/-- One freshly generated auto-sync link. -/
def gen0 : List GenLink :=
  [{ platform := "Twitter", username := "bob", url := "https://twitter.com/bob" }]

/-- The row the store returns when `gen0` is inserted with the local
list `[autoLink0, manualLink0]` (so base display order 2). -/
def newAutoLink0 : SocialLink :=
  { id := "sl-3", card_id := "card-1", platform := "Twitter"
    username := "bob", url := "https://twitter.com/bob"
    display_order := 2, is_active := true, is_auto_synced := true }

/-- A first add-link request. -/
def req0 : AddReq :=
  { platform := "GitHub", username := "me"
    url := "https://github.com/me", id := "sl-10" }

/-- A second add-link request. -/
def req1 : AddReq :=
  { platform := "Twitter", username := "me"
    url := "https://twitter.com/me", id := "sl-11" }

/-- A persisted source card with nontrivial published flag, view count
and slug, for the duplicate theorems. -/
def srcCard : BusinessCard :=
  { insertedRow1 with
    id := "card-9", title := "Jane",
    is_published := true, view_count := 42, slug := some "jane" }

/-- A parsed snapshot whose draft username is "bob". -/
def bobSnapshot : Snapshot :=
  { formData := { emptyForm with username := "bob" }
    socialLinks := [], mediaItems := [], reviews := [], exported_at := 0 }

/-! ## Theorems -/

/-- C1: the claim says a save never performs an insert once a persisted
identity exists — including one adopted from a previous successful
insert in the same session — so two consecutive successful saves of a
draft opened as new would produce exactly one inserted record.  The
code violates this: `handleSave` branches on the `existingCard` prop,
fixed at initialization, and ignores the adopted `businessCard`
identity.  Evaluated here: a draft opened as new is saved via the
basic-tab Next button (which adopts the returned identity `card-1`),
then saved again — the editor holds the identity, yet the second save
issues another insert, creating a duplicate record. -/
theorem second_save_of_new_draft_inserts_again :
    (basicTabNext (some "user-1") none
        { formData := janeForm, businessCard := none, saving := false }
        (.ok insertedRow1)).op
      = some (.insertCard (buildCardData "user-1" janeForm))
    ∧ (basicTabNext (some "user-1") none
        { formData := janeForm, businessCard := none, saving := false }
        (.ok insertedRow1)).state.businessCard = some insertedRow1
    ∧ (handleSave (some "user-1") none
        (basicTabNext (some "user-1") none
          { formData := janeForm, businessCard := none, saving := false }
          (.ok insertedRow1)).state
        (.ok insertedRow2)).op
      = some (.insertCard (buildCardData "user-1" janeForm)) := by
  decide

/-- C2 counterexample: the claim says the stored username keeps every
character of [a-z0-9-_], hyphens and underscores retained.  In fact the
revision-1 filter keeps only [a-z0-9] (dropping both '-' and '_') and
the revision-2 filter keeps only [a-z0-9-] (dropping '_'): on input
"a_b" both store "ab", and on "a-b" revision 1 stores "ab". -/
theorem username_filter_drops_underscore :
    usernameFilter1 "a_b" = "ab"
    ∧ usernameFilter2 "a_b" = "ab"
    ∧ usernameFilter1 "a-b" = "ab"
    ∧ ("ab" : String) ≠ "a_b" := by
  decide

/-- C2 amended: for every input string, setting the username field
stores the input lowercased with every character outside [a-z0-9]
removed (revision 1), respectively outside [a-z0-9-] (revision 2);
underscores are always removed, the hyphen survives only in revision 2,
and no input is ever rejected (the filters are total functions). -/
theorem username_filter_charset (x : String) :
    (∀ c ∈ (usernameFilter1 x).data, isSlugChar1 c = true)
    ∧ (∀ c ∈ (usernameFilter2 x).data, isSlugChar2 c = true)
    ∧ '_' ∉ (usernameFilter1 x).data
    ∧ '_' ∉ (usernameFilter2 x).data
    ∧ '-' ∉ (usernameFilter1 x).data := by
  have h1 : (usernameFilter1 x).data
      = (x.data.map asciiLower).filter isSlugChar1 := rfl
  have h2 : (usernameFilter2 x).data
      = (x.data.map asciiLower).filter isSlugChar2 := rfl
  refine ⟨?_, ?_, ?_, ?_, ?_⟩
  · intro c hc
    rw [h1] at hc
    exact (List.mem_filter.mp hc).2
  · intro c hc
    rw [h2] at hc
    exact (List.mem_filter.mp hc).2
  · intro hc
    rw [h1] at hc
    exact absurd (List.mem_filter.mp hc).2 (by decide)
  · intro hc
    rw [h2] at hc
    exact absurd (List.mem_filter.mp hc).2 (by decide)
  · intro hc
    rw [h1] at hc
    exact absurd (List.mem_filter.mp hc).2 (by decide)

/-- Witness for the C2 amended theorem at the concrete input "A_b-9":
the stored revision-1 value is "ab9", whose first character satisfies
the [a-z0-9] predicate, and no underscore survives. -/
theorem username_filter_charset_witness :
    isSlugChar1 'a' = true ∧ '_' ∉ (usernameFilter1 "A_b-9").data := by
  have h := username_filter_charset "A_b-9"
  exact ⟨h.1 'a' (by decide), h.2.2.1⟩

/-- C7: when a save fails — the store returns an error or the call
throws — a user-facing alert is surfaced and the editor's draft state
(the form fields and the stored card identity) is exactly what it was
before the attempt, so the same draft can be retried unchanged; nothing
is returned. -/
theorem save_failure_alerts_and_preserves_draft (uid : String)
    (ex : Option BusinessCard) (st : EditorState) (outcome : SaveOutcome)
    (h : outcome = .err ∨ outcome = .exn) :
    (handleSave (some uid) ex st outcome).alerted = true
    ∧ (handleSave (some uid) ex st outcome).state.formData = st.formData
    ∧ (handleSave (some uid) ex st outcome).state.businessCard
        = st.businessCard
    ∧ (handleSave (some uid) ex st outcome).returned = none := by
  rcases h with h | h <;> subst h <;> cases ex <;> simp [handleSave]

/-- Witness for C7 at a concrete failing save of a new draft. -/
theorem save_failure_witness :
    (handleSave (some "user-1") none
      { formData := janeForm, businessCard := none, saving := false }
      .err).alerted = true
    ∧ (handleSave (some "user-1") none
      { formData := janeForm, businessCard := none, saving := false }
      .err).state.businessCard = none := by
  have h := save_failure_alerts_and_preserves_draft "user-1" none
    { formData := janeForm, businessCard := none, saving := false }
    .err (Or.inl rfl)
  exact ⟨h.1, h.2.2.1⟩

/-- C10: the persisted payload's slug is `formData.username || null` —
the empty username yields a null slug (not the empty string), and any
nonempty username is stored as the slug verbatim. -/
theorem slug_is_username_or_null (uid : String) (f : FormData) :
    (f.username = "" → (buildCardData uid f).slug = none)
    ∧ (f.username ≠ "" → (buildCardData uid f).slug = some f.username) := by
  constructor <;> intro h <;> simp [buildCardData, jsOrNull, h]

/-- Witness for C10 at the empty draft and at a draft with username
"janedoe". -/
theorem slug_is_username_or_null_witness :
    (buildCardData "user-1" emptyForm).slug = none
    ∧ (buildCardData "user-1" janeForm).slug = some "janedoe" := by
  exact ⟨(slug_is_username_or_null "user-1" emptyForm).1 rfl,
    (slug_is_username_or_null "user-1" janeForm).2 (by decide)⟩

/-- C3 counterexample: the claim says that after auto-sync the old
auto-synced links are gone both remotely and in the editor's local
list.  Remotely they are (here the result is `[manualLink0,
newAutoLink0]`), but the local list is set to `[...socialLinks,
...data]`, which appends the inserted rows without removing the old
auto-synced entries: `autoLink0` — previously auto-synced — remains in
the local list alongside its replacement `newAutoLink0`. -/
theorem auto_sync_local_list_keeps_old_links :
    handleAutoSyncSocialLinks (some "card-1") "bob" gen0 (fun _ => "sl-3")
        [autoLink0, manualLink0] [autoLink0, manualLink0] true
      = ([manualLink0, newAutoLink0], [autoLink0, manualLink0, newAutoLink0])
    ∧ autoLink0.is_auto_synced = true
    ∧ newAutoLink0.is_auto_synced = true := by
  decide

/-- C3 amended: with a persisted card and a nonempty global username, a
successful auto-sync replaces, in the remote store, exactly the rows
flagged auto-synced for that card by the freshly generated ones —
manually added links are untouched remotely — but the editor's local
list only appends the inserted rows, retaining the previously
auto-synced entries until the card is reloaded. -/
theorem auto_sync_remote_replaces_local_appends (cid gu : String)
    (gen : List GenLink) (assignId : Nat → String)
    (remote feed : List SocialLink) (h : gu ≠ "") :
    (handleAutoSyncSocialLinks (some cid) gu gen assignId remote feed true).1
      = remote.filter (keepLink cid)
        ++ autoSyncInserted cid feed.length gen assignId
    ∧ (handleAutoSyncSocialLinks (some cid) gu gen assignId remote feed true).2
      = feed ++ autoSyncInserted cid feed.length gen assignId
    ∧ (∀ l ∈ remote, l.is_auto_synced = false →
        l ∈ (handleAutoSyncSocialLinks (some cid) gu gen assignId
              remote feed true).1)
    ∧ (∀ l ∈ autoSyncInserted cid feed.length gen assignId,
        l.is_auto_synced = true)
    ∧ (∀ l ∈ remote, l.card_id = cid → l.is_auto_synced = true →
        l ∉ remote.filter (keepLink cid)) := by
  have hres : handleAutoSyncSocialLinks (some cid) gu gen assignId
        remote feed true
      = (remote.filter (keepLink cid)
          ++ autoSyncInserted cid feed.length gen assignId,
         feed ++ autoSyncInserted cid feed.length gen assignId) := by
    simp [handleAutoSyncSocialLinks, h]
  refine ⟨by rw [hres], by rw [hres], ?_, ?_, ?_⟩
  · intro l hl hauto
    rw [hres]
    exact List.mem_append_left _
      (List.mem_filter.mpr ⟨hl, by simp [keepLink, hauto]⟩)
  · intro l hl
    obtain ⟨gi, _, rfl⟩ := List.mem_map.mp hl
    rfl
  · intro l hl hcid hauto hmem
    have hk := (List.mem_filter.mp hmem).2
    simp [keepLink, hcid, hauto] at hk

/-- Witness for the C3 amended theorem at the concrete two-link state
used by the counterexample. -/
theorem auto_sync_remote_replaces_witness :
    manualLink0 ∈ (handleAutoSyncSocialLinks (some "card-1") "bob" gen0
      (fun _ => "sl-3") [autoLink0, manualLink0] [autoLink0, manualLink0]
      true).1 := by
  have h := auto_sync_remote_replaces_local_appends "card-1" "bob" gen0
    (fun _ => "sl-3") [autoLink0, manualLink0] [autoLink0, manualLink0]
    (by decide)
  exact h.2.2.1 manualLink0 (by decide) (by decide)

/-- C4 counterexample: the claim says that after a field mutation on a
draft with a persisted identity, one auto-save update is issued once
3000 ms pass without further input.  The code has no auto-save at all:
the `autoSaving` flag (CardEditor.tsx line 142) is declared but never
read or written, and every field onChange handler only updates the form
state — here a concrete title edit on a persisted draft produces no
effect whatsoever, so the number of persistence calls issued, now or by
any scheduled timer, is 0 rather than 1. -/
theorem field_edit_schedules_no_autosave :
    (editorFieldEdit
        { formData := janeForm, businessCard := some insertedRow1
          saving := false }
        (.title "Jane D. Doe")).2 = []
    ∧ (dbOpsOf (editorFieldEdit
        { formData := janeForm, businessCard := some insertedRow1
          saving := false }
        (.title "Jane D. Doe")).2).length ≠ 1 := by
  decide

/-- C4 amended: the editor performs no auto-save.  Every field mutation
handler only replaces the form state: it emits no effect — no
persistence call, no alert, and no timer — so no persistence call
follows any idle delay; saving happens only through the explicit
handleSave paths. -/
theorem field_edit_has_no_effects (st : EditorState) (e : FieldEdit) :
    (editorFieldEdit st e).2 = []
    ∧ dbOpsOf (editorFieldEdit st e).2 = [] := by
  cases e <;> simp [editorFieldEdit, onFieldChange, dbOpsOf]

/-- C5 counterexample: the claim says every display field other than
the published flag and the view counter is copied from the source; the
title is not — duplicating a card titled "Jane" inserts a payload
titled "Jane (Copy)". -/
theorem duplicate_changes_title :
    (handleDuplicateCard srcCard).title = "Jane (Copy)"
    ∧ srcCard.title = "Jane"
    ∧ (handleDuplicateCard srcCard).title ≠ srcCard.title := by
  decide

/-- C5 amended: duplicating a persisted card builds an insert payload
whose published flag is false and whose view counter is zero regardless
of the source's values; the payload carries no identity, timestamps or
slug (the `DupPayload` type has no such fields — the destructuring
strips them); the title is the source title with " (Copy)" appended,
and every other display field is copied verbatim. -/
theorem duplicate_payload_fields (card : BusinessCard) :
    (handleDuplicateCard card).is_published = false
    ∧ (handleDuplicateCard card).view_count = 0
    ∧ (handleDuplicateCard card).title = card.title ++ " (Copy)"
    ∧ (handleDuplicateCard card).user_id = card.user_id
    ∧ (handleDuplicateCard card).company = card.company
    ∧ (handleDuplicateCard card).position = card.position
    ∧ (handleDuplicateCard card).phone = card.phone
    ∧ (handleDuplicateCard card).email = card.email
    ∧ (handleDuplicateCard card).website = card.website
    ∧ (handleDuplicateCard card).avatar_url = card.avatar_url
    ∧ (handleDuplicateCard card).bio = card.bio
    ∧ (handleDuplicateCard card).whatsapp = card.whatsapp
    ∧ (handleDuplicateCard card).address = card.address
    ∧ (handleDuplicateCard card).map_link = card.map_link
    ∧ (handleDuplicateCard card).theme = card.theme
    ∧ (handleDuplicateCard card).shape = card.shape
    ∧ (handleDuplicateCard card).layout = card.layout := by
  refine ⟨rfl, rfl, rfl, rfl, rfl, rfl, rfl, rfl, rfl, rfl, rfl, rfl,
    rfl, rfl, rfl, rfl, rfl⟩

/-- A valid add request appends exactly one row, numbered with the
current length of the local list. -/
theorem addSocialLink_eq_append (cid : String) (req : AddReq)
    (links : List SocialLink) (h1 : req.platform ≠ "")
    (h2 : req.username ≠ "") :
    addSocialLink (some cid) req true links
      = links ++ [mkAddedLink cid req links.length] := by
  simp [addSocialLink, h1, h2]

/-- Successive valid additions number the appended rows
`links.length, links.length + 1, …` — dense and strictly increasing. -/
theorem addAll_map_display_order (cid : String) (reqs : List AddReq)
    (links : List SocialLink)
    (h : ∀ r ∈ reqs, r.platform ≠ "" ∧ r.username ≠ "") :
    (addAll cid reqs links).map (fun l => l.display_order)
      = links.map (fun l => l.display_order)
        ++ List.range' links.length reqs.length := by
  induction reqs generalizing links with
  | nil => simp [addAll]
  | cons r rs ih =>
    have hr := h r (List.mem_cons_self r rs)
    have hstep : addAll cid (r :: rs) links
        = addAll cid rs (links ++ [mkAddedLink cid r links.length]) := by
      simp [addAll, addSocialLink_eq_append cid r links hr.1 hr.2]
    rw [hstep, ih _ (fun r' hr' => h r' (List.mem_cons_of_mem r hr'))]
    simp [List.range'_succ, mkAddedLink]

/-- Editing a link's handle rewrites its username, URL and auto-synced
flag but leaves every display order as it was. -/
theorem edit_preserves_display_order (links : List SocialLink)
    (linkId newUsername newUrl : String) (ok : Bool) :
    (handleSocialLinkEdit links linkId newUsername newUrl ok).map
        (fun l => l.display_order)
      = links.map (fun l => l.display_order) := by
  cases hf : links.find? (fun l => l.id == linkId) with
  | none => simp [handleSocialLinkEdit, hf]
  | some l0 =>
    cases ok with
    | false => simp [handleSocialLinkEdit, hf]
    | true =>
      have hrw : handleSocialLinkEdit links linkId newUsername newUrl true
          = links.map (fun l =>
              if l.id == linkId then
                { l with username := newUsername, url := newUrl
                         is_auto_synced := false }
              else l) := by
        simp [handleSocialLinkEdit, hf]
      rw [hrw, List.map_map]
      apply List.map_congr_left
      intro a _
      by_cases hid : (a.id == linkId) = true <;> simp [Function.comp, hid]

/-- Removing a link deletes it and passes every other row through
untouched (in particular nothing is renumbered). -/
theorem remove_keeps_rows (links : List SocialLink) (linkId : String)
    (ok : Bool) :
    ∀ l ∈ handleRemoveSocialLink links linkId ok, l ∈ links := by
  intro l hl
  cases ok with
  | false => simpa [handleRemoveSocialLink] using hl
  | true => exact List.mem_of_mem_filter hl

/-- Auto-sync never drops or renumbers a row of the editor's local
list (it only appends). -/
theorem auto_sync_keeps_feed (cid gu : String) (gen : List GenLink)
    (aid : Nat → String) (remote feed : List SocialLink) (ok : Bool) :
    ∀ l ∈ feed,
      l ∈ (handleAutoSyncSocialLinks (some cid) gu gen aid
            remote feed ok).2 := by
  intro l hl
  by_cases hgu : gu = ""
  · simpa [handleAutoSyncSocialLinks, hgu] using hl
  · cases ok with
    | false => simpa [handleAutoSyncSocialLinks, hgu] using hl
    | true =>
      simp [handleAutoSyncSocialLinks, hgu]
      exact Or.inl hl

/-- C6: every social link added via addSocialLink is assigned a display
order equal to the current length of the editor's local list (first
link 0, second 1, …); successive additions without removals therefore
produce the dense, strictly increasing orders
`links.length, links.length + 1, …`; and no operation — edit, remove,
or auto-sync — renumbers or reorders the existing rows of the local
list. -/
theorem add_social_link_dense_display_order :
    (∀ (cid : String) (req : AddReq) (links : List SocialLink),
        req.platform ≠ "" → req.username ≠ "" →
        addSocialLink (some cid) req true links
          = links ++ [mkAddedLink cid req links.length]
        ∧ (mkAddedLink cid req links.length).display_order = links.length)
    ∧ (∀ (cid : String) (reqs : List AddReq) (links : List SocialLink),
        (∀ r ∈ reqs, r.platform ≠ "" ∧ r.username ≠ "") →
        (addAll cid reqs links).map (fun l => l.display_order)
          = links.map (fun l => l.display_order)
            ++ List.range' links.length reqs.length)
    ∧ (∀ (links : List SocialLink) (linkId newUsername newUrl : String)
          (ok : Bool),
        (handleSocialLinkEdit links linkId newUsername newUrl ok).map
            (fun l => l.display_order)
          = links.map (fun l => l.display_order))
    ∧ (∀ (links : List SocialLink) (linkId : String) (ok : Bool),
        ∀ l ∈ handleRemoveSocialLink links linkId ok, l ∈ links)
    ∧ (∀ (cid gu : String) (gen : List GenLink) (aid : Nat → String)
          (remote feed : List SocialLink) (ok : Bool),
        ∀ l ∈ feed,
          l ∈ (handleAutoSyncSocialLinks (some cid) gu gen aid
                remote feed ok).2) := by
  exact ⟨fun cid req links h1 h2 =>
      ⟨addSocialLink_eq_append cid req links h1 h2, rfl⟩,
    addAll_map_display_order, edit_preserves_display_order,
    remove_keeps_rows, auto_sync_keeps_feed⟩

/-- Witness for C6: two successive additions to an empty list receive
display orders 0 and 1. -/
theorem add_social_link_dense_witness :
    (addAll "card-1" [req0, req1] ([] : List SocialLink)).map
        (fun l => l.display_order) = [0, 1] := by
  have h := add_social_link_dense_display_order.2.1 "card-1" [req0, req1]
    ([] : List SocialLink) (by decide)
  exact h.trans (by decide)

/-- C8: the admin shell's card-list load requests exactly the cards
whose owner reference equals the current session's user id, ordered by
update timestamp descending (most recently updated first), and replaces
the full in-memory list with the result. -/
theorem load_user_cards_spec (uid : String) (table : List BusinessCard)
    (st : AdminState) :
    (loadUserCards (some uid) table st .ok).cards
      = List.insertionSort updatedDesc
          (table.filter fun c => c.user_id == uid)
    ∧ (∀ c, c ∈ (loadUserCards (some uid) table st .ok).cards
        ↔ c ∈ table ∧ c.user_id = uid)
    ∧ List.Sorted updatedDesc (loadUserCards (some uid) table st .ok).cards := by
  refine ⟨rfl, ?_, ?_⟩
  · intro c
    show c ∈ List.insertionSort updatedDesc
        (table.filter fun c => c.user_id == uid) ↔ _
    rw [(List.perm_insertionSort updatedDesc _).mem_iff, List.mem_filter]
    simp [beq_iff_eq]
  · exact List.sorted_insertionSort updatedDesc _

/-- Witness for C8: loading the two-row table places the session
user's card in the resulting list. -/
theorem load_user_cards_witness :
    insertedRow1 ∈ (loadUserCards (some "user-1")
      [insertedRow2, insertedRow1]
      { cards := [], loading := true } .ok).cards := by
  have h := load_user_cards_spec "user-1" [insertedRow2, insertedRow1]
    { cards := [], loading := true }
  exact (h.2.1 insertedRow1).mpr ⟨by decide, by decide⟩

/-- C9: importing a successfully parsed snapshot yields a draft whose
username is the snapshot's username with the fixed suffix "-imported"
appended, with every other part of the draft carried over, and accepts
every parsed snapshot unconditionally — the only check is parse
success (a failed parse yields no draft). -/
theorem import_snapshot_appends_suffix :
    (∀ s : Snapshot, ∃ d, importSnapshot (some s) = some d
      ∧ d.formData.username = s.formData.username ++ "-imported"
      ∧ d.formData.title = s.formData.title
      ∧ d.socialLinks = s.socialLinks
      ∧ d.mediaItems = s.mediaItems
      ∧ d.reviews = s.reviews)
    ∧ importSnapshot none = none := by
  exact ⟨fun s => ⟨_, rfl, rfl, rfl, rfl, rfl, rfl⟩, rfl⟩

/-- Witness for C9 at the §8 scenario: a snapshot with username "bob"
imports to a draft with username "bob-imported". -/
theorem import_snapshot_bob_witness :
    (importSnapshot (some bobSnapshot)).map (fun d => d.formData.username)
      = some "bob-imported" := by
  obtain ⟨d, h1, h2, _⟩ := import_snapshot_appends_suffix.1 bobSnapshot
  rw [h1, Option.map_some', h2]
  rfl

end DBC
